import Mathlib

/-!
Shallow embedding of `TargetDistributionDataCheck.validate`
(src/evalml/data_checks/target_distribution_data_check.py) and of the
`Estimator` wrapper methods (src/evalml/pipelines/components/estimator.py).

Numeric series values are rational numbers.  The external collaborators
(the Shapiro-Wilk normality test from scipy, the pandas standard
deviation, Python rounding and float formatting, and the numpy natural
logarithm) are modelled as abstract total primitives collected in a
`StatsEnv`; the semantic-type inference of woodwork is modelled by the
target carrying the inferred logical-type string alongside its values.
-/

/-- Modelled from the spec: the problem-type enumeration of
`evalml.problem_types.ProblemTypes` (the module is not part of this
source excerpt).  The spec names `regression` and `time-series-regression`
as the accepted tags and says every other tag is rejected; `binary` and
`multiclass` stand for the rejected tags. -/
inductive ProblemTypes where
  | binary
  | multiclass
  | regression
  | timeSeriesRegression
deriving DecidableEq

/-- Modelled from the spec: the string Python produces when formatting a
`ProblemTypes` member into an error message. -/
def ProblemTypes.pyStr : ProblemTypes → String
  | .binary => "ProblemTypes.BINARY"
  | .multiclass => "ProblemTypes.MULTICLASS"
  | .regression => "ProblemTypes.REGRESSION"
  | .timeSeriesRegression => "ProblemTypes.TIME_SERIES_REGRESSION"

/-- Value of a `details` or `metadata` mapping entry: the source stores
strings, a problem-type member, booleans and Python `None` in them. -/
inductive DVal where
  | str (s : String)
  | probType (p : ProblemTypes)
  | bool (b : Bool)
  | null
deriving DecidableEq

/-- Mapping type used for the `details` and `metadata` dictionaries. -/
abbrev Details := List (String × DVal)

/-- Modelled from the spec: the message codes of
`evalml.data_checks.DataCheckMessageCode` used by this check. -/
inductive DataCheckMessageCode where
  | targetIsNone
  | targetUnsupportedProblemType
  | targetUnsupportedType
  | targetLognormalDistribution
deriving DecidableEq

/-- Modelled from the spec: the action codes of
`evalml.data_checks.DataCheckActionCode` used by this check. -/
inductive DataCheckActionCode where
  | transformTarget
deriving DecidableEq

/-- Modelled from the spec: the dictionary produced by
`DataCheckError.to_dict` and `DataCheckWarning.to_dict`
(message, check name, level, code, details). -/
structure DataCheckMessage where
  message : String
  data_check_name : String
  level : String
  code : DataCheckMessageCode
  details : Details
deriving DecidableEq

/-- Modelled from the spec: the dictionary produced by
`DataCheckAction.to_dict` (code, metadata). -/
structure DataCheckAction where
  code : DataCheckActionCode
  metadata : Details
deriving DecidableEq

/-- The result dictionary of `validate`: the three lists initialised as
`results = \x7b"warnings": [], "errors": [], "actions": []\x7d`. -/
structure CheckResult where
  warnings : List DataCheckMessage
  errors : List DataCheckMessage
  actions : List DataCheckAction
deriving DecidableEq

/-- External numeric primitives used by `validate`.  `shapiro` returns the
pair (statistic, pvalue) of `scipy.stats.shapiro`; `std` is the pandas
sample standard deviation of a series; `round3` is the Python builtin
`round(x, 3)`; `fmt` is the Python string formatting of a float inside an
f-string; `log` is `numpy.log` on one element. -/
structure StatsEnv where
  shapiro : List ℚ → ℚ × ℚ
  std : List ℚ → ℚ
  round3 : ℚ → ℚ
  fmt : ℚ → String
  log : ℚ → ℚ

/-- A target series after woodwork initialisation: its numeric values and
the `logical_type.type_string` the external inference assigned to it. -/
structure TargetSeries where
  values : List ℚ
  type_string : String
deriving DecidableEq

/-- Woodwork type strings accepted by the check (source: `allowed_types =
[ww.logical_types.Integer.type_string, ww.logical_types.Double.type_string]`). -/
def allowed_types : List String := ["integer", "double"]

/-- Name of the data check class, used as `data_check_name`. -/
def checkName : String := "TargetDistributionDataCheck"

/-- Minimum of a series, as `y.min()`; the empty case never feeds the
computation because the shift branch requires an element that is ≤ 0. -/
def seriesMin : List ℚ → ℚ
  | [] => 0
  | v :: vs => vs.foldl min v

/-- Arithmetic mean of a series, as `y.mean()` on a nonempty series. -/
def seriesMean (y : List ℚ) : ℚ := y.sum / (y.length : ℚ)

/-- The shifted copy of the target computed at lines 107-110 of the check:
`y + abs(y.min()) + 1` when any value is ≤ 0, the target unchanged
otherwise. -/
def shiftedSeries (y : List ℚ) : List ℚ :=
  if y.any (fun v => decide (v ≤ 0)) then
    y.map (fun v => v + |seriesMin y| + 1)
  else
    y

/-- The outlier-trimmed series of lines 112-114:
`y_new[y_new < (y_new.mean() + 3 * round(y.std(), 3))]` — the mean is the
shifted series' mean, the standard deviation is the original target's,
rounded to 3 decimal places before the multiplication by 3. -/
def trimmedSeries (env : StatsEnv) (y : List ℚ) : List ℚ :=
  let y_new := shiftedSeries y
  y_new.filter (fun v =>
    decide (v < seriesMean y_new + 3 * env.round3 (env.std y)))

/-- Shallow embedding of `TargetDistributionDataCheck.validate`.  `X` is
the features argument, accepted and ignored; `y` is `none` for a Python
`None` target and otherwise carries the values and the inferred logical
type string. -/
def validate {Feat : Type} (env : StatsEnv) (problem_type : ProblemTypes)
    (X : Feat) (y : Option TargetSeries) : CheckResult :=
  match y with
  | none =>
      { warnings := []
        errors := [{ message := "Target is None"
                     data_check_name := checkName
                     level := "error"
                     code := DataCheckMessageCode.targetIsNone
                     details := [] }]
        actions := [] }
  | some ys =>
      if problem_type ∉ [ProblemTypes.regression, ProblemTypes.timeSeriesRegression] then
        { warnings := []
          errors := [{ message := "Problem type " ++ problem_type.pyStr ++
                         " is unsupported. Valid problem types include: [ProblemTypes.REGRESSION, ProblemTypes.TIME_SERIES_REGRESSION]"
                       data_check_name := checkName
                       level := "error"
                       code := DataCheckMessageCode.targetUnsupportedProblemType
                       details := [("unsupported_problem_type", DVal.probType problem_type)] }]
          actions := [] }
      else if ys.type_string ∉ allowed_types then
        { warnings := []
          errors := [{ message := "Target is unsupported " ++ ys.type_string ++
                         " type. Valid Woodwork logical types include: " ++
                         String.intercalate ", " allowed_types
                       data_check_name := checkName
                       level := "error"
                       code := DataCheckMessageCode.targetUnsupportedType
                       details := [("unsupported_type", DVal.str ys.type_string)] }]
          actions := [] }
      else if (env.shapiro ys.values).2 ≥ 0.05 then
        { warnings := [], errors := [], actions := [] }
      else
        let y_new := trimmedSeries env ys.values
        let shapiro_test_og := env.shapiro y_new
        let shapiro_test_log := env.shapiro (y_new.map env.log)
        if shapiro_test_log.2 ≥ shapiro_test_og.2 then
          { warnings := [{ message := "Target may have a lognormal distribution."
                           data_check_name := checkName
                           level := "warning"
                           code := DataCheckMessageCode.targetLognormalDistribution
                           details := [("shapiro-statistic/pvalue",
                             DVal.str (env.fmt (env.round3 shapiro_test_og.1) ++ "/" ++
                               env.fmt (env.round3 shapiro_test_og.2)))] }]
            errors := []
            actions := [{ code := DataCheckActionCode.transformTarget
                          metadata := [("column", DVal.null),
                                       ("is_target", DVal.bool true),
                                       ("transformation_strategy", DVal.str "lognormal")] }]
          }
        else
          { warnings := [], errors := [], actions := [] }

/-- A concrete statistics environment (normality test always answers
statistic 1, p-value 1) used to evaluate the check on explicit inputs. -/
def defaultEnv : StatsEnv :=
  { shapiro := fun _ => (1, 1)
    std := fun _ => 0
    round3 := fun q => q
    fmt := fun _ => ""
    log := fun q => q }

/-- A concrete statistics environment whose normality test always answers
statistic 0, p-value 0, so the raw target is never considered normal. -/
def lowPEnv : StatsEnv :=
  { shapiro := fun _ => (0, 0)
    std := fun _ => 0
    round3 := fun q => q
    fmt := fun _ => ""
    log := fun q => q }

/-- Interface of the wrapped third-party model held in
`self._component_obj`: the external library provides `predict`,
`predict_proba` and `score`. -/
structure ComponentModel (DF Ser Proba Sc : Type) where
  predict : DF → Ser
  predict_proba : DF → Proba
  score : DF → Ser → Sc

/-- Observable outcome of one `Estimator` wrapper method call: the value
the wrapped model computed when it was invoked, and the value the wrapper
returned to its caller (a Python body without a return statement returns
`None`, modelled as `none`). -/
structure MethodOutcome (Invoked Ret : Type) where
  invoked : Invoked
  returned : Option Ret
deriving DecidableEq

namespace Estimator

/-- Embedding of `Estimator.predict`: the body evaluates
`self._component_obj.predict(X)` and falls off the end, so the wrapped
prediction is computed but `None` is returned. -/
def predict {DF Ser Proba Sc : Type} (c : ComponentModel DF Ser Proba Sc)
    (X : DF) : MethodOutcome Ser Ser :=
  { invoked := c.predict X, returned := none }

/-- Embedding of `Estimator.predict_proba`: evaluates
`self._component_obj.predict_proba(X)` and returns `None`. -/
def predict_proba {DF Ser Proba Sc : Type} (c : ComponentModel DF Ser Proba Sc)
    (X : DF) : MethodOutcome Proba Proba :=
  { invoked := c.predict_proba X, returned := none }

/-- Embedding of `Estimator.score`: evaluates
`self._component_obj.score(X, y)` and returns `None`; the
`other_objectives` argument is accepted and never used. -/
def score {DF Ser Proba Sc : Type} (c : ComponentModel DF Ser Proba Sc)
    (X : DF) (y : Ser) (other_objectives : Option (List String)) :
    MethodOutcome Sc Sc :=
  { invoked := c.score X y, returned := none }

end Estimator

/-- C5: for a null target, `validate` returns exactly one error with code
`TARGET_IS_NONE` and empty details, no warnings and no actions, whatever
the environment, features and problem type — in particular also when the
problem type is itself unsupported. -/
theorem validate_none_target_error {Feat : Type} (env : StatsEnv)
    (pt : ProblemTypes) (X : Feat) :
    validate env pt X none =
      { warnings := []
        errors := [{ message := "Target is None"
                     data_check_name := checkName
                     level := "error"
                     code := DataCheckMessageCode.targetIsNone
                     details := [] }]
        actions := [] } := rfl

/-- C6: for a non-null target and a problem type that is neither
regression nor time-series regression, `validate` returns exactly one
error with code `TARGET_UNSUPPORTED_PROBLEM_TYPE` whose details carry the
offending problem type, and no warnings or actions. -/
theorem validate_unsupported_problem_type {Feat : Type} (env : StatsEnv)
    (pt : ProblemTypes) (X : Feat) (ys : TargetSeries)
    (h : pt ∉ [ProblemTypes.regression, ProblemTypes.timeSeriesRegression]) :
    validate env pt X (some ys) =
      { warnings := []
        errors := [{ message := "Problem type " ++ pt.pyStr ++
                       " is unsupported. Valid problem types include: [ProblemTypes.REGRESSION, ProblemTypes.TIME_SERIES_REGRESSION]"
                     data_check_name := checkName
                     level := "error"
                     code := DataCheckMessageCode.targetUnsupportedProblemType
                     details := [("unsupported_problem_type", DVal.probType pt)] }]
        actions := [] } := by
  simp only [validate, if_pos h]

/-- Closed instance of `validate_unsupported_problem_type` at the binary
problem type. -/
theorem validate_unsupported_problem_type_witness :
    (ProblemTypes.binary ∉ [ProblemTypes.regression, ProblemTypes.timeSeriesRegression])
    ∧ validate defaultEnv ProblemTypes.binary () (some { values := [1, 2, 3], type_string := "double" }) =
      { warnings := []
        errors := [{ message := "Problem type " ++ ProblemTypes.binary.pyStr ++
                       " is unsupported. Valid problem types include: [ProblemTypes.REGRESSION, ProblemTypes.TIME_SERIES_REGRESSION]"
                     data_check_name := checkName
                     level := "error"
                     code := DataCheckMessageCode.targetUnsupportedProblemType
                     details := [("unsupported_problem_type", DVal.probType ProblemTypes.binary)] }]
        actions := [] } :=
  ⟨by decide,
   validate_unsupported_problem_type defaultEnv ProblemTypes.binary ()
     { values := [1, 2, 3], type_string := "double" } (by decide)⟩

/-- C4: on a supported problem type, a numeric target whose raw
normality-test p-value is at least 0.05 yields an entirely empty result:
no errors, no warnings, no actions. -/
theorem validate_normal_returns_empty {Feat : Type} (env : StatsEnv)
    (pt : ProblemTypes) (X : Feat) (ys : TargetSeries)
    (hpt : pt ∈ [ProblemTypes.regression, ProblemTypes.timeSeriesRegression])
    (hty : ys.type_string ∈ allowed_types)
    (hp : (env.shapiro ys.values).2 ≥ 0.05) :
    validate env pt X (some ys) = { warnings := [], errors := [], actions := [] } := by
  simp only [validate, if_neg (not_not_intro hpt), if_neg (not_not_intro hty), if_pos hp]

/-- Closed instance of `validate_normal_returns_empty` on an explicit
target whose normality test answers p-value 1. -/
theorem validate_normal_returns_empty_witness :
    (ProblemTypes.regression ∈ [ProblemTypes.regression, ProblemTypes.timeSeriesRegression])
    ∧ ("double" ∈ allowed_types)
    ∧ ((defaultEnv.shapiro [1, 2, 3]).2 ≥ 0.05)
    ∧ validate defaultEnv ProblemTypes.regression () (some { values := [1, 2, 3], type_string := "double" }) =
        { warnings := [], errors := [], actions := [] } :=
  ⟨by decide, by decide, by norm_num [defaultEnv],
   validate_normal_returns_empty defaultEnv ProblemTypes.regression ()
     { values := [1, 2, 3], type_string := "double" } (by decide) (by decide)
     (by norm_num [defaultEnv])⟩

/-- C9: `validate` is a pure function that ignores its features argument:
with the same environment, problem type and target, any two feature
inputs produce identical results. -/
theorem validate_ignores_features {Feat : Type} (env : StatsEnv)
    (pt : ProblemTypes) (X1 X2 : Feat) (y : Option TargetSeries) :
    validate env pt X1 y = validate env pt X2 y := rfl

/-- C10: each `Estimator` wrapper method invokes the corresponding method
of the wrapped third-party model on its arguments, discards the computed
value and returns `None` to its caller. -/
theorem estimator_methods_return_none {DF Ser Proba Sc : Type}
    (c : ComponentModel DF Ser Proba Sc) (X : DF) (y : Ser)
    (objs : Option (List String)) :
    (Estimator.predict c X).returned = none
    ∧ (Estimator.predict c X).invoked = c.predict X
    ∧ (Estimator.predict_proba c X).returned = none
    ∧ (Estimator.predict_proba c X).invoked = c.predict_proba X
    ∧ (Estimator.score c X y objs).returned = none
    ∧ (Estimator.score c X y objs).invoked = c.score X y :=
  ⟨rfl, rfl, rfl, rfl, rfl, rfl⟩

/-- C8: whenever the result of `validate` carries an error, its warnings
and actions are empty — errors short-circuit the check. -/
theorem validate_errors_exclusive {Feat : Type} (env : StatsEnv)
    (pt : ProblemTypes) (X : Feat) (y : Option TargetSeries)
    (h : (validate env pt X y).errors ≠ []) :
    (validate env pt X y).warnings = [] ∧ (validate env pt X y).actions = [] := by
  cases y with
  | none => exact ⟨rfl, rfl⟩
  | some ys =>
    by_cases h1 : pt ∈ [ProblemTypes.regression, ProblemTypes.timeSeriesRegression]
    · by_cases h2 : ys.type_string ∈ allowed_types
      · by_cases h3 : (env.shapiro ys.values).2 ≥ 0.05
        · refine absurd ?_ h
          simp only [validate, if_neg (not_not_intro h1), if_neg (not_not_intro h2), if_pos h3]
        · by_cases h4 : (env.shapiro ((trimmedSeries env ys.values).map env.log)).2 ≥
              (env.shapiro (trimmedSeries env ys.values)).2
          · refine absurd ?_ h
            simp only [validate, if_neg (not_not_intro h1), if_neg (not_not_intro h2),
              if_neg h3, if_pos h4]
          · refine absurd ?_ h
            simp only [validate, if_neg (not_not_intro h1), if_neg (not_not_intro h2),
              if_neg h3, if_neg h4]
      · constructor
        · simp only [validate, if_neg (not_not_intro h1), if_pos h2]
        · simp only [validate, if_neg (not_not_intro h1), if_pos h2]
    · constructor
      · simp only [validate, if_pos h1]
      · simp only [validate, if_pos h1]

/-- Closed instance of `validate_errors_exclusive` at a null target. -/
theorem validate_errors_exclusive_witness :
    (validate defaultEnv ProblemTypes.regression () (none : Option TargetSeries)).errors ≠ []
    ∧ ((validate defaultEnv ProblemTypes.regression () (none : Option TargetSeries)).warnings = []
       ∧ (validate defaultEnv ProblemTypes.regression () (none : Option TargetSeries)).actions = []) :=
  ⟨by decide,
   validate_errors_exclusive defaultEnv ProblemTypes.regression () none (by decide)⟩

/-- C7 (amended): on a supported problem type, a non-null target whose
inferred logical type is outside the allowed list yields exactly one
error with code `TARGET_UNSUPPORTED_TYPE`; the details mapping carries
only the detected type under the key `unsupported_type`, while the
allowed-type list appears in the message text. -/
theorem validate_unsupported_type_error {Feat : Type} (env : StatsEnv)
    (pt : ProblemTypes) (X : Feat) (ys : TargetSeries)
    (hpt : pt ∈ [ProblemTypes.regression, ProblemTypes.timeSeriesRegression])
    (hty : ys.type_string ∉ allowed_types) :
    validate env pt X (some ys) =
      { warnings := []
        errors := [{ message := "Target is unsupported " ++ ys.type_string ++
                       " type. Valid Woodwork logical types include: " ++
                       String.intercalate ", " allowed_types
                     data_check_name := checkName
                     level := "error"
                     code := DataCheckMessageCode.targetUnsupportedType
                     details := [("unsupported_type", DVal.str ys.type_string)] }]
        actions := [] } := by
  simp only [validate, if_neg (not_not_intro hpt), if_pos hty]

/-- Closed instance of `validate_unsupported_type_error` at a target
inferred as categorical. -/
theorem validate_unsupported_type_error_witness :
    (ProblemTypes.regression ∈ [ProblemTypes.regression, ProblemTypes.timeSeriesRegression])
    ∧ ("categorical" ∉ allowed_types)
    ∧ validate defaultEnv ProblemTypes.regression ()
        (some { values := [1, 2, 3], type_string := "categorical" }) =
      { warnings := []
        errors := [{ message := "Target is unsupported " ++ "categorical" ++
                       " type. Valid Woodwork logical types include: " ++
                       String.intercalate ", " allowed_types
                     data_check_name := checkName
                     level := "error"
                     code := DataCheckMessageCode.targetUnsupportedType
                     details := [("unsupported_type", DVal.str "categorical")] }]
        actions := [] } :=
  ⟨by decide, by decide,
   validate_unsupported_type_error defaultEnv ProblemTypes.regression ()
     { values := [1, 2, 3], type_string := "categorical" } (by decide) (by decide)⟩

/-- C7 (counterexample to the claim as stated): for a categorical target
the error's details mapping is exactly the single pair binding
`unsupported_type` to the detected type string; no entry of the mapping
carries the allowed-type list, neither joined as one string nor as a
single member, so the details do not include the allowed-type list. -/
theorem validate_unsupported_type_details_cex :
    (validate defaultEnv ProblemTypes.regression ()
        (some { values := [1, 2, 3], type_string := "categorical" })).errors.map
        (fun e => e.details) = [[("unsupported_type", DVal.str "categorical")]]
    ∧ DVal.str "categorical" ≠ DVal.str (String.intercalate ", " allowed_types)
    ∧ DVal.str "categorical" ≠ DVal.str "integer"
    ∧ DVal.str "categorical" ≠ DVal.str "double" := by
  refine ⟨?_, by decide, by decide, by decide⟩
  decide

/-- Folding `min` over a list starting from `a` bounds `a` and every list
element from below. -/
theorem foldl_min_le (l : List ℚ) : ∀ a : ℚ, l.foldl min a ≤ a ∧ ∀ x ∈ l, l.foldl min a ≤ x := by
  induction l with
  | nil => intro a; exact ⟨le_refl a, by intro x hx; cases hx⟩
  | cons b t ih =>
    intro a
    have h := ih (min a b)
    refine ⟨le_trans h.1 (min_le_left a b), ?_⟩
    intro x hx
    rcases List.mem_cons.mp hx with rfl | hxt
    · exact le_trans h.1 (min_le_right a x)
    · exact h.2 x hxt

/-- `seriesMin` is a lower bound of the series. -/
theorem seriesMin_le {y : List ℚ} {v : ℚ} (hv : v ∈ y) : seriesMin y ≤ v := by
  cases y with
  | nil => cases hv
  | cons a t =>
    rcases List.mem_cons.mp hv with rfl | hvt
    · exact (foldl_min_le t v).1
    · exact (foldl_min_le t a).2 v hvt

/-- Every element of the shifted series is strictly positive: when no
value is ≤ 0 the series is unchanged and already positive, and otherwise
each value moves up by the absolute minimum plus one. -/
theorem shiftedSeries_pos (y : List ℚ) : ∀ v ∈ shiftedSeries y, 0 < v := by
  intro v hv
  unfold shiftedSeries at hv
  split at hv
  · rcases List.mem_map.mp hv with ⟨w, hw, rfl⟩
    have hmin : seriesMin y ≤ w := seriesMin_le hw
    have habs : -|seriesMin y| ≤ seriesMin y := neg_abs_le _
    linarith
  · rename_i hany
    have hpos : ¬ v ≤ 0 := by
      intro hle
      exact hany (List.any_eq_true.mpr ⟨v, hv, by simpa using hle⟩)
    exact not_le.mp hpos

/-- C1: on a supported problem type and numeric target whose raw p-value
is below 0.05, `validate` appends the `TARGET_LOGNORMAL_DISTRIBUTION`
warning — whose details bind `shapiro-statistic/pvalue` to the formatted
rounded statistic and p-value of the untransformed trimmed-series test —
and the `TRANSFORM_TARGET` action with metadata column null, is_target
true, transformation_strategy lognormal, exactly when the p-value of the
log of the outlier-trimmed series is at least that of the untransformed
trimmed series; no error is ever produced on this path. -/
theorem validate_lognormal_iff {Feat : Type} (env : StatsEnv)
    (pt : ProblemTypes) (X : Feat) (ys : TargetSeries)
    (hpt : pt ∈ [ProblemTypes.regression, ProblemTypes.timeSeriesRegression])
    (hty : ys.type_string ∈ allowed_types)
    (hp : (env.shapiro ys.values).2 < 0.05) :
    ((validate env pt X (some ys)).warnings =
        [{ message := "Target may have a lognormal distribution."
           data_check_name := checkName
           level := "warning"
           code := DataCheckMessageCode.targetLognormalDistribution
           details := [("shapiro-statistic/pvalue",
             DVal.str (env.fmt (env.round3 (env.shapiro (trimmedSeries env ys.values)).1) ++ "/" ++
               env.fmt (env.round3 (env.shapiro (trimmedSeries env ys.values)).2)))] }]
      ↔ (env.shapiro ((trimmedSeries env ys.values).map env.log)).2 ≥
          (env.shapiro (trimmedSeries env ys.values)).2)
    ∧ ((validate env pt X (some ys)).actions =
        [{ code := DataCheckActionCode.transformTarget
           metadata := [("column", DVal.null), ("is_target", DVal.bool true),
                        ("transformation_strategy", DVal.str "lognormal")] }]
      ↔ (env.shapiro ((trimmedSeries env ys.values).map env.log)).2 ≥
          (env.shapiro (trimmedSeries env ys.values)).2)
    ∧ (validate env pt X (some ys)).errors = [] := by
  have hp' : ¬ (env.shapiro ys.values).2 ≥ 0.05 := not_le.mpr hp
  by_cases h4 : (env.shapiro ((trimmedSeries env ys.values).map env.log)).2 ≥
      (env.shapiro (trimmedSeries env ys.values)).2
  · simp only [validate, if_neg (not_not_intro hpt), if_neg (not_not_intro hty),
      if_neg hp', if_pos h4]
    exact ⟨iff_of_true trivial h4, iff_of_true trivial h4, trivial⟩
  · simp only [validate, if_neg (not_not_intro hpt), if_neg (not_not_intro hty),
      if_neg hp', if_neg h4]
    refine ⟨iff_of_false ?_ h4, iff_of_false ?_ h4, trivial⟩
    · exact fun hcon => List.noConfusion hcon
    · exact fun hcon => List.noConfusion hcon

/-- Closed instance of `validate_lognormal_iff` on an explicit target in
an environment whose normality test always answers p-value 0. -/
theorem validate_lognormal_iff_witness :
    (ProblemTypes.regression ∈ [ProblemTypes.regression, ProblemTypes.timeSeriesRegression])
    ∧ ("double" ∈ allowed_types)
    ∧ ((lowPEnv.shapiro [1, 2, 3]).2 < 0.05)
    ∧ (((validate lowPEnv ProblemTypes.regression ()
          (some { values := [1, 2, 3], type_string := "double" })).warnings =
        [{ message := "Target may have a lognormal distribution."
           data_check_name := checkName
           level := "warning"
           code := DataCheckMessageCode.targetLognormalDistribution
           details := [("shapiro-statistic/pvalue",
             DVal.str (lowPEnv.fmt (lowPEnv.round3 (lowPEnv.shapiro (trimmedSeries lowPEnv [1, 2, 3])).1) ++ "/" ++
               lowPEnv.fmt (lowPEnv.round3 (lowPEnv.shapiro (trimmedSeries lowPEnv [1, 2, 3])).2)))] }]
      ↔ (lowPEnv.shapiro ((trimmedSeries lowPEnv [1, 2, 3]).map lowPEnv.log)).2 ≥
          (lowPEnv.shapiro (trimmedSeries lowPEnv [1, 2, 3])).2)
    ∧ ((validate lowPEnv ProblemTypes.regression ()
          (some { values := [1, 2, 3], type_string := "double" })).actions =
        [{ code := DataCheckActionCode.transformTarget
           metadata := [("column", DVal.null), ("is_target", DVal.bool true),
                        ("transformation_strategy", DVal.str "lognormal")] }]
      ↔ (lowPEnv.shapiro ((trimmedSeries lowPEnv [1, 2, 3]).map lowPEnv.log)).2 ≥
          (lowPEnv.shapiro (trimmedSeries lowPEnv [1, 2, 3])).2)
    ∧ (validate lowPEnv ProblemTypes.regression ()
          (some { values := [1, 2, 3], type_string := "double" })).errors = []) :=
  ⟨by decide, by decide, by norm_num [lowPEnv],
   validate_lognormal_iff lowPEnv ProblemTypes.regression ()
     { values := [1, 2, 3], type_string := "double" } (by decide) (by decide)
     (by norm_num [lowPEnv])⟩

/-- C2: on a supported problem type and numeric target whose raw p-value
is below 0.05, the series that feeds the two final normality tests is
computed as follows: the target is shifted by the absolute minimum plus
one exactly when some value is ≤ 0 (and every value of the shifted copy
is then strictly positive), and the shifted copy is filtered to the
values strictly below the shifted series mean plus three times the
rounded standard deviation of the original target. -/
theorem validate_trim_pipeline {Feat : Type} (env : StatsEnv)
    (pt : ProblemTypes) (X : Feat) (ys : TargetSeries)
    (hpt : pt ∈ [ProblemTypes.regression, ProblemTypes.timeSeriesRegression])
    (hty : ys.type_string ∈ allowed_types)
    (hp : (env.shapiro ys.values).2 < 0.05) :
    shiftedSeries ys.values =
      (if ys.values.any (fun v => decide (v ≤ 0))
       then ys.values.map (fun v => v + |seriesMin ys.values| + 1)
       else ys.values)
    ∧ (∀ v ∈ shiftedSeries ys.values, 0 < v)
    ∧ trimmedSeries env ys.values =
        (shiftedSeries ys.values).filter (fun v =>
          decide (v < seriesMean (shiftedSeries ys.values) + 3 * env.round3 (env.std ys.values)))
    ∧ validate env pt X (some ys) =
        (if (env.shapiro ((trimmedSeries env ys.values).map env.log)).2 ≥
            (env.shapiro (trimmedSeries env ys.values)).2
         then
           { warnings := [{ message := "Target may have a lognormal distribution."
                            data_check_name := checkName
                            level := "warning"
                            code := DataCheckMessageCode.targetLognormalDistribution
                            details := [("shapiro-statistic/pvalue",
                              DVal.str (env.fmt (env.round3 (env.shapiro (trimmedSeries env ys.values)).1) ++ "/" ++
                                env.fmt (env.round3 (env.shapiro (trimmedSeries env ys.values)).2)))] }]
             errors := []
             actions := [{ code := DataCheckActionCode.transformTarget
                           metadata := [("column", DVal.null), ("is_target", DVal.bool true),
                                        ("transformation_strategy", DVal.str "lognormal")] }] }
         else { warnings := [], errors := [], actions := [] }) := by
  have hp' : ¬ (env.shapiro ys.values).2 ≥ 0.05 := not_le.mpr hp
  refine ⟨rfl, shiftedSeries_pos ys.values, rfl, ?_⟩
  simp only [validate, if_neg (not_not_intro hpt), if_neg (not_not_intro hty), if_neg hp']

/-- Closed instance of `validate_trim_pipeline` on an explicit target in
an environment whose normality test always answers p-value 0. -/
theorem validate_trim_pipeline_witness :
    (ProblemTypes.regression ∈ [ProblemTypes.regression, ProblemTypes.timeSeriesRegression])
    ∧ ("double" ∈ allowed_types)
    ∧ ((lowPEnv.shapiro [1, 2, 3]).2 < 0.05)
    ∧ (shiftedSeries [1, 2, 3] =
        (if [1, 2, 3].any (fun v => decide (v ≤ 0))
         then [1, 2, 3].map (fun v => v + |seriesMin [1, 2, 3]| + 1)
         else [1, 2, 3])
      ∧ (∀ v ∈ shiftedSeries [1, 2, 3], 0 < v)
      ∧ trimmedSeries lowPEnv [1, 2, 3] =
          (shiftedSeries [1, 2, 3]).filter (fun v =>
            decide (v < seriesMean (shiftedSeries [1, 2, 3]) + 3 * lowPEnv.round3 (lowPEnv.std [1, 2, 3])))
      ∧ validate lowPEnv ProblemTypes.regression ()
            (some { values := [1, 2, 3], type_string := "double" }) =
          (if (lowPEnv.shapiro ((trimmedSeries lowPEnv [1, 2, 3]).map lowPEnv.log)).2 ≥
              (lowPEnv.shapiro (trimmedSeries lowPEnv [1, 2, 3])).2
           then
             { warnings := [{ message := "Target may have a lognormal distribution."
                              data_check_name := checkName
                              level := "warning"
                              code := DataCheckMessageCode.targetLognormalDistribution
                              details := [("shapiro-statistic/pvalue",
                                DVal.str (lowPEnv.fmt (lowPEnv.round3 (lowPEnv.shapiro (trimmedSeries lowPEnv [1, 2, 3])).1) ++ "/" ++
                                  lowPEnv.fmt (lowPEnv.round3 (lowPEnv.shapiro (trimmedSeries lowPEnv [1, 2, 3])).2)))] }]
               errors := []
               actions := [{ code := DataCheckActionCode.transformTarget
                             metadata := [("column", DVal.null), ("is_target", DVal.bool true),
                                          ("transformation_strategy", DVal.str "lognormal")] }] }
           else { warnings := [], errors := [], actions := [] })) :=
  ⟨by decide, by decide, by norm_num [lowPEnv],
   validate_trim_pipeline lowPEnv ProblemTypes.regression ()
     { values := [1, 2, 3], type_string := "double" } (by decide) (by decide)
     (by norm_num [lowPEnv])⟩

/-- Mean of a nonempty constant series is its constant value. -/
theorem seriesMean_replicate (m : ℕ) (d : ℚ) :
    seriesMean (List.replicate (m + 1) d) = d := by
  unfold seriesMean
  rw [List.sum_replicate, List.length_replicate, nsmul_eq_mul,
    mul_div_cancel_left₀ d (Nat.cast_ne_zero.mpr (Nat.succ_ne_zero m))]

/-- A constant target is trimmed to the empty series whenever its rounded
standard deviation is 0: the outlier threshold degenerates to the mean of
the (still constant) shifted copy, and no value is strictly below it. -/
theorem trimmedSeries_replicate_nil (env : StatsEnv) (c : ℚ) (n : ℕ)
    (hstd : env.round3 (env.std (List.replicate n c)) = 0) :
    trimmedSeries env (List.replicate n c) = [] := by
  cases n with
  | zero => rfl
  | succ m =>
    obtain ⟨d, hd⟩ : ∃ d, shiftedSeries (List.replicate (m + 1) c) = List.replicate (m + 1) d := by
      unfold shiftedSeries
      split
      · exact ⟨c + |seriesMin (List.replicate (m + 1) c)| + 1, List.map_replicate⟩
      · exact ⟨c, rfl⟩
    simp only [trimmedSeries, hd, hstd, seriesMean_replicate]
    apply List.filter_eq_nil_iff.mpr
    intro a ha
    rw [List.mem_replicate] at ha
    simp [ha.2]

/-- C3: the check never raises past its boundary in this embedding — the
shift, trim and log steps are total: every value the shifted and trimmed
series can feed to the logarithm is strictly positive, and a target with
all identical values (zero variance, so its rounded standard deviation is
0) is trimmed to the empty series and still yields a structured result
with no error: either the empty result or the lognormal warning with the
transform action, never an exception. -/
theorem validate_zero_variance_graceful (env : StatsEnv) (c : ℚ) (n : ℕ)
    (hstd : env.round3 (env.std (List.replicate n c)) = 0) :
    (∀ y : List ℚ, ∀ v ∈ shiftedSeries y, 0 < v)
    ∧ (∀ y : List ℚ, ∀ v ∈ trimmedSeries env y, 0 < v)
    ∧ trimmedSeries env (List.replicate n c) = []
    ∧ (validate env ProblemTypes.regression ()
        (some { values := List.replicate n c, type_string := "double" }) =
          { warnings := [], errors := [], actions := [] }
      ∨ validate env ProblemTypes.regression ()
        (some { values := List.replicate n c, type_string := "double" }) =
          { warnings := [{ message := "Target may have a lognormal distribution."
                           data_check_name := checkName
                           level := "warning"
                           code := DataCheckMessageCode.targetLognormalDistribution
                           details := [("shapiro-statistic/pvalue",
                             DVal.str (env.fmt (env.round3 (env.shapiro []).1) ++ "/" ++
                               env.fmt (env.round3 (env.shapiro []).2)))] }]
            errors := []
            actions := [{ code := DataCheckActionCode.transformTarget
                          metadata := [("column", DVal.null), ("is_target", DVal.bool true),
                                       ("transformation_strategy", DVal.str "lognormal")] }] }) := by
  have htrim := trimmedSeries_replicate_nil env c n hstd
  refine ⟨shiftedSeries_pos, ?_, htrim, ?_⟩
  · intro y v hv
    exact shiftedSeries_pos y v (List.mem_of_mem_filter hv)
  · by_cases hp : (env.shapiro (List.replicate n c)).2 ≥ 0.05
    · left
      simp only [validate, if_neg (not_not_intro (by decide :
        ProblemTypes.regression ∈ [ProblemTypes.regression, ProblemTypes.timeSeriesRegression])),
        if_neg (not_not_intro (by decide : "double" ∈ allowed_types)), if_pos hp]
    · right
      simp only [validate, if_neg (not_not_intro (by decide :
        ProblemTypes.regression ∈ [ProblemTypes.regression, ProblemTypes.timeSeriesRegression])),
        if_neg (not_not_intro (by decide : "double" ∈ allowed_types)), if_neg hp, htrim,
        List.map_nil, if_pos (le_refl (env.shapiro []).2)]

/-- Closed instance of `validate_zero_variance_graceful` at a constant
target of three identical values. -/
theorem validate_zero_variance_graceful_witness :
    (defaultEnv.round3 (defaultEnv.std (List.replicate 3 (5 : ℚ))) = 0)
    ∧ ((∀ y : List ℚ, ∀ v ∈ shiftedSeries y, 0 < v)
      ∧ (∀ y : List ℚ, ∀ v ∈ trimmedSeries defaultEnv y, 0 < v)
      ∧ trimmedSeries defaultEnv (List.replicate 3 (5 : ℚ)) = []
      ∧ (validate defaultEnv ProblemTypes.regression ()
          (some { values := List.replicate 3 (5 : ℚ), type_string := "double" }) =
            { warnings := [], errors := [], actions := [] }
        ∨ validate defaultEnv ProblemTypes.regression ()
          (some { values := List.replicate 3 (5 : ℚ), type_string := "double" }) =
            { warnings := [{ message := "Target may have a lognormal distribution."
                             data_check_name := checkName
                             level := "warning"
                             code := DataCheckMessageCode.targetLognormalDistribution
                             details := [("shapiro-statistic/pvalue",
                               DVal.str (defaultEnv.fmt (defaultEnv.round3 (defaultEnv.shapiro []).1) ++ "/" ++
                                 defaultEnv.fmt (defaultEnv.round3 (defaultEnv.shapiro []).2)))] }]
              errors := []
              actions := [{ code := DataCheckActionCode.transformTarget
                            metadata := [("column", DVal.null), ("is_target", DVal.bool true),
                                         ("transformation_strategy", DVal.str "lognormal")] }] })) :=
  ⟨rfl, validate_zero_variance_graceful defaultEnv 5 3 rfl⟩
